import Mathlib

/-!
Verification of the volume file cache and sequence-frame logic of
`source/blender/blenkernel/intern/volume.cc`.

The development shallowly embeds the relevant C++ functions:

* `volume_sequence_frame` (pure arithmetic on `int`, embedded over `Int`
  with C-style truncated modulo `Int.tmod`);
* the global `VolumeFileCache` user counting and eviction logic
  (`remove_user`, `change_to_tree_user`, `change_to_metadata_user`,
  `copy_user`, `update_for_remove_user`) as explicit state transitions on a
  cache `Entry` record, where the result `none` models erasure of the entry
  from the cache set;
* the `VolumeGrid` handle operations (`load`, `unload`, copy construction)
  as transitions on the pair (handle `is_loaded` flag, referenced entry),
  with file reads modelled by an explicit `Except` oracle and a boolean
  result component recording whether the operation performed file I/O;
* `BKE_volume_load` on a volume/grid-collection state with a file-system
  oracle (existence test and metadata enumeration);
* the lock acquisition/release structure of each operation as an explicit
  event trace, used to settle the lock-discipline claim;
* the grid accessors `BKE_volume_num_grids`, `BKE_volume_grid_get`,
  `BKE_volume_grid_active_get` over a list of grids.
-/

namespace BlenderVolume

/-! ### Sequence frame resolution (`volume_sequence_frame`) -/

/-- `#define VOLUME_FRAME_NONE INT_MAX` -/
def VOLUME_FRAME_NONE : Int := 2147483647

/-- The `VolumeSequenceMode` enum from `DNA_volume_types.h`. -/
inductive VolumeSequenceMode where
  | VOLUME_SEQUENCE_CLIP
  | VOLUME_SEQUENCE_EXTEND
  | VOLUME_SEQUENCE_REPEAT
  | VOLUME_SEQUENCE_PING_PONG
  deriving DecidableEq, Repr

/-- `clamp_i(value, min, max)` from `BLI_math`: `min_ii(max_ii(value, min), max)`. -/
def clamp_i (value low high : Int) : Int :=
  min (max value low) high

/-- The `VOLUME_SEQUENCE_REPEAT` branch of `volume_sequence_frame`:
`frame = frame % frame_duration; if (frame < 0) frame += frame_duration;
if (frame == 0) frame = frame_duration;`.  C `%` on `int` is truncated
division remainder, i.e. `Int.tmod`. -/
def repeat_wrap (frame_duration frame : Int) : Int :=
  let f1 := Int.tmod frame frame_duration
  let f2 := if f1 < 0 then f1 + frame_duration else f1
  if f2 = 0 then frame_duration else f2

/-- `const int pingpong_duration = frame_duration * 2 - 2;` from the
`VOLUME_SEQUENCE_PING_PONG` branch of `volume_sequence_frame`. -/
def pingpong_duration (frame_duration : Int) : Int :=
  frame_duration * 2 - 2

/-- The `VOLUME_SEQUENCE_PING_PONG` branch of `volume_sequence_frame`:
wrap into the pingpong period (with negative-remainder correction and the
zero-maps-to-period case), then fold frames past `frame_duration` back via
`frame_duration * 2 - frame`. -/
def pingpong_wrap (frame_duration frame : Int) : Int :=
  let p := pingpong_duration frame_duration
  let f1 := Int.tmod frame p
  let f2 := if f1 < 0 then f1 + p else f1
  let f3 := if f2 = 0 then p else f2
  if f3 > frame_duration then frame_duration * 2 - f3 else f3

/-- `volume_sequence_frame(depsgraph, volume)`.  The scene time
`DEG_get_ctime(depsgraph)` and the `volume` fields are taken as arguments.
The final `frame += frame_offset` of the source is applied at the end of
each non-sentinel branch; the `VOLUME_SEQUENCE_CLIP` out-of-range case
returns `VOLUME_FRAME_NONE` directly, skipping the offset, exactly as the
early `return` in the source does. -/
def volume_sequence_frame (is_sequence : Bool) (scene_frame : Int)
    (mode : VolumeSequenceMode) (frame_duration frame_start frame_offset : Int) : Int :=
  if !is_sequence then 0
  else if frame_duration = 0 then VOLUME_FRAME_NONE
  else
    let frame := scene_frame - frame_start + 1
    match mode with
    | .VOLUME_SEQUENCE_CLIP =>
        if frame < 1 || frame > frame_duration then VOLUME_FRAME_NONE
        else frame + frame_offset
    | .VOLUME_SEQUENCE_EXTEND =>
        clamp_i frame 1 frame_duration + frame_offset
    | .VOLUME_SEQUENCE_REPEAT =>
        repeat_wrap frame_duration frame + frame_offset
    | .VOLUME_SEQUENCE_PING_PONG =>
        pingpong_wrap frame_duration frame + frame_offset

/-! ### The global volume file cache (`VolumeFileCache`)

A cache `Entry` is one record per `(filepath, grid_name)` key.  The OpenVDB
grid owned by the entry is modelled by the payload of its tree only: the
field `tree : Option String` is `some data` when the grid's tree is
attached (`grid->setTree(...)`) and `none` when it is absent or cleared
(`grid->clear()`).  Erasing the entry from the global cache set
(`cache.erase(entry)`) is modelled by the operations returning `none`. -/

structure Entry where
  filepath : String
  grid_name : String
  /-- Tree payload of the entry's OpenVDB grid; `none` = no tree attached. -/
  tree : Option String
  /-- Has the grid tree been loaded? -/
  is_loaded : Bool
  /-- Error message if an error occurred during loading. -/
  error_msg : String
  num_metadata_users : Int
  num_tree_users : Int
  deriving DecidableEq, Repr

/-- Total user count of an entry. -/
def users_total (e : Entry) : Int :=
  e.num_metadata_users + e.num_tree_users

/-- `VolumeFileCache::update_for_remove_user`: erase the entry when both
counters are zero; otherwise, when no tree users remain, clear the grid's
tree and mark the entry unloaded. -/
def update_for_remove_user (entry : Entry) : Option Entry :=
  if entry.num_metadata_users + entry.num_tree_users = 0 then
    none
  else if entry.num_tree_users = 0 then
    some { entry with tree := none, is_loaded := false }
  else
    some entry

/-- `VolumeFileCache::copy_user`: increment the counter matching the
duplicated handle's class. -/
def copy_user (entry : Entry) (tree_user : Bool) : Entry :=
  if tree_user then
    { entry with num_tree_users := entry.num_tree_users + 1 }
  else
    { entry with num_metadata_users := entry.num_metadata_users + 1 }

/-- `VolumeFileCache::remove_user`: decrement the matching counter, then
run the eviction check. -/
def remove_user (entry : Entry) (tree_user : Bool) : Option Entry :=
  update_for_remove_user
    (if tree_user then
      { entry with num_tree_users := entry.num_tree_users - 1 }
    else
      { entry with num_metadata_users := entry.num_metadata_users - 1 })

/-- `VolumeFileCache::change_to_tree_user`. -/
def change_to_tree_user (entry : Entry) : Option Entry :=
  update_for_remove_user
    { entry with
      num_tree_users := entry.num_tree_users + 1
      num_metadata_users := entry.num_metadata_users - 1 }

/-- `VolumeFileCache::change_to_metadata_user`. -/
def change_to_metadata_user (entry : Entry) : Option Entry :=
  update_for_remove_user
    { entry with
      num_metadata_users := entry.num_metadata_users + 1
      num_tree_users := entry.num_tree_users - 1 }

/-- The user-count mutations of the global cache that run the eviction
check (`copy_user` only increments and is treated separately). -/
inductive CacheOp where
  | removeUser (tree_user : Bool)
  | changeToTreeUser
  | changeToMetadataUser
  deriving DecidableEq, Repr

def applyOp : CacheOp → Entry → Option Entry
  | .removeUser tree_user, e => remove_user e tree_user
  | .changeToTreeUser, e => change_to_tree_user e
  | .changeToMetadataUser, e => change_to_metadata_user e

/-- Net change the operation makes to the total user count. -/
def opDelta : CacheOp → Int
  | .removeUser _ => -1
  | .changeToTreeUser => 0
  | .changeToMetadataUser => 0

/-- Validity of an operation against an entry: every decrement targets a
counter holding at least one user (each live handle owns exactly one unit
of exactly one counter, and these operations are only invoked by a handle
releasing or converting its own unit). -/
def opValid : CacheOp → Entry → Prop
  | .removeUser true, e => 1 ≤ e.num_tree_users
  | .removeUser false, e => 1 ≤ e.num_metadata_users
  | .changeToTreeUser, e => 1 ≤ e.num_metadata_users
  | .changeToMetadataUser, e => 1 ≤ e.num_tree_users

instance (op : CacheOp) (e : Entry) : Decidable (opValid op e) := by
  unfold opValid
  cases op with
  | removeUser t => cases t <;> infer_instance
  | changeToTreeUser => infer_instance
  | changeToMetadataUser => infer_instance

/-! ### Grid handles (`VolumeGrid`)

A handle is the pair of its own `is_loaded` flag and the cache entry it
points to (`none` for a private, non-file-backed grid).  Because the
claims under scrutiny concern a single entry and its handles, the shared
entry state is passed and returned explicitly.  File reads
(`file.open(); file.readGrid(name)`) are modelled by an oracle
`read_result : Except String String`: `.ok data` is a successfully read
tree, `.error msg` an `openvdb::IoError` with message `msg` (`e.what()`).
Each operation additionally reports whether it performed file I/O. -/

/-- `VolumeGrid::load(volume_name, filepath)`.  Result components:
new handle `is_loaded` flag, new entry state (`none` = entry erased or
absent), and whether file I/O was performed.

The `change_to_tree_user` call can only erase the entry if the calling
handle did not hold the metadata-user unit it is converting; that cannot
occur in the source (the handle owns one unit by construction), and the
theorems below carry the corresponding counter hypotheses. -/
def gridLoad (read_result : Except String String) (handle_loaded : Bool) :
    Option Entry → Bool × Option Entry × Bool
  | none => (handle_loaded, none, false)
  | some e =>
    if handle_loaded then (handle_loaded, some e, false)
    else
      match change_to_tree_user e with
      | none => (handle_loaded, none, false)
      | some e1 =>
        if e1.is_loaded then (true, some e1, false)
        else
          match read_result with
          | .ok tree_data =>
              (true, some { e1 with tree := some tree_data, is_loaded := true }, true)
          | .error msg =>
              (true, some { e1 with error_msg := msg, is_loaded := true }, true)

/-- `VolumeGrid::unload(volume_name)`: when this handle is loaded and
file-backed, convert its tree-user unit back to a metadata-user unit and
clear the handle's local flag. -/
def gridUnload (handle_loaded : Bool) : Option Entry → Bool × Option Entry
  | none => (handle_loaded, none)
  | some e =>
    if !handle_loaded then (handle_loaded, some e)
    else
      match change_to_metadata_user e with
      | none => (false, none)
      | some e1 => (false, some e1)

/-- `VolumeGrid::VolumeGrid(const VolumeGrid &other)`: copy the fields and,
for a file-backed handle, register one more user of the matching class via
`GLOBAL_CACHE.copy_user(*entry, is_loaded)`. -/
def gridCopy (handle_loaded : Bool) : Option Entry → Bool × Option Entry
  | none => (handle_loaded, none)
  | some e => (handle_loaded, some (copy_user e handle_loaded))

/-! ### Grid collection load (`BKE_volume_load`)

The collection (`VolumeGridVector`) carries the runtime file path the
grids were loaded from (empty string = nothing loaded), the aggregate
error message, and the list of grids added by `grids.emplace_back(...)`
(represented by their names, in discovery order).  Disk access is modelled
by a `FileSystem` oracle: `file_exists` is `BLI_exists`, and
`read_all_grid_metadata` is `file.open(); file.readAllGridMetadata()`
returning either an `IoError` message (in which case the local
`vdb_grids` vector keeps its initial empty value, since the assignment
threw) or the list of grid pointers, `none` entries being the NULL
pointers the loop filters out.  Path resolution (`volume_filepath_get`,
built on `BLI_path_abs`/`BLI_path_frame`, outside this slice) is
abstracted by the `resolved` argument: the absolute path for the current
frame that the call writes into `grids.filepath`. -/

structure VolumeGrids where
  filepath : String
  error_msg : String
  grid_names : List String
  deriving DecidableEq, Repr

structure VolumeState where
  /-- `volume->filepath` on the datablock. -/
  filepath : String
  /-- `volume->runtime.frame`. -/
  runtime_frame : Int
  /-- `volume->runtime.grids`. -/
  grids : VolumeGrids
  deriving DecidableEq, Repr

structure FileSystem where
  file_exists : String → Bool
  read_all_grid_metadata : String → Except String (List (Option String))

/-- `BKE_volume_is_loaded`: there is either no file to load, or the grids
vector was already loaded (`grids->is_loaded()` = runtime path non-empty). -/
def BKE_volume_is_loaded (v : VolumeState) : Bool :=
  v.filepath = "" || v.grids.filepath ≠ ""

/-- Characters of the file-name component after the last directory
separator: scan the path, restarting the accumulator at each `'/'`. -/
def split_file_part_chars : List Char → List Char → List Char
  | [], acc => acc.reverse
  | c :: cs, acc =>
      if c = '/' then split_file_part_chars cs []
      else split_file_part_chars cs (c :: acc)

/-- `BLI_split_file_part`: the file-name component after the last
directory separator. -/
def split_file_part (s : String) : String :=
  ⟨split_file_part_chars s.data []⟩

structure LoadResult where
  ret : Bool
  volume : VolumeState
  /-- Whether `openvdb::io::File::open` / metadata enumeration ran. -/
  opened_file : Bool
  /-- Whether any disk access happened (including `BLI_exists`). -/
  touched_disk : Bool
  deriving DecidableEq, Repr

/-- `BKE_volume_load(volume, bmain)`.  Sequential rendering of the source:
the double-checked lock re-test of `BKE_volume_is_loaded` under
`grids.mutex` repeats the same condition and is collapsed with the fast
path; the literally duplicated `BLI_exists` block in the source is
behaviourally a single test.  Each new grid found becomes one metadata
user of a global cache entry via the `VolumeGrid` constructor; here the
collection records the discovered names. -/
def BKE_volume_load (fs : FileSystem) (resolved : String) (v : VolumeState) : LoadResult :=
  if v.runtime_frame = VOLUME_FRAME_NONE then
    { ret := true, volume := v, opened_file := false, touched_disk := false }
  else if BKE_volume_is_loaded v then
    { ret := v.grids.error_msg = "", volume := v, opened_file := false, touched_disk := false }
  else
    let g0 : VolumeGrids := { v.grids with filepath := resolved }
    if fs.file_exists resolved = false then
      let g1 : VolumeGrids :=
        { g0 with error_msg := split_file_part resolved ++ " not found" }
      { ret := false, volume := { v with grids := g1 },
        opened_file := false, touched_disk := true }
    else
      match fs.read_all_grid_metadata resolved with
      | .error msg =>
        let g1 : VolumeGrids := { g0 with error_msg := msg }
        { ret := g1.error_msg = "", volume := { v with grids := g1 },
          opened_file := true, touched_disk := true }
      | .ok vdb_grids =>
        let g1 : VolumeGrids :=
          { g0 with grid_names := g0.grid_names ++ vdb_grids.filterMap id }
        { ret := g1.error_msg = "", volume := { v with grids := g1 },
          opened_file := true, touched_disk := true }

/-! ### Grid accessors -/

/-- `BKE_volume_num_grids`: `volume->runtime.grids->size()` as `int`. -/
def BKE_volume_num_grids (grids : List α) : Int :=
  grids.length

/-- `BKE_volume_grid_get`: `&volume->runtime.grids->at(grid_index)`;
`none` models the out-of-range failure of `std::vector::at`. -/
def BKE_volume_grid_get (grids : List α) (grid_index : Int) : Option α :=
  if 0 ≤ grid_index then grids.get? grid_index.toNat else none

/-- `BKE_volume_grid_active_get`: NULL when there are no grids, otherwise
the grid at `clamp_i(volume->active_grid, 0, num_grids - 1)`. -/
def BKE_volume_grid_active_get (grids : List α) (active_grid : Int) : Option α :=
  let num_grids := BKE_volume_num_grids grids
  if num_grids = 0 then none
  else BKE_volume_grid_get grids (clamp_i active_grid 0 (num_grids - 1))

/-! ### Lock traces

The three mutexes of the slice and each operation's acquisition /
release / file-I/O events, listed in the textual order in which the
source performs them.  `std::lock_guard` releases at the end of the
enclosing scope. -/

inductive LockId where
  | global_cache
  | entry_mutex
  | collection_mutex
  deriving DecidableEq, Repr

inductive LockEv where
  | acquire (l : LockId)
  | release (l : LockId)
  | file_read
  deriving DecidableEq, Repr

def lockStep (held : List LockId) : LockEv → List LockId
  | .acquire l => l :: held
  | .release l => held.erase l
  | .file_read => held

/-- Some prefix of the trace reaches a state with two or more locks held. -/
def two_locks_held : List LockId → List LockEv → Bool
  | _, [] => false
  | held, e :: rest =>
      let held2 := lockStep held e
      decide (2 ≤ held2.length) || two_locks_held held2 rest

/-- The global cache lock is held at some `file_read` event. -/
def global_held_during_file_read : List LockId → List LockEv → Bool
  | _, [] => false
  | held, e :: rest =>
      (match e with
       | .file_read => held.contains .global_cache
       | _ => false)
      || global_held_during_file_read (lockStep held e) rest

/-- Some other lock is already held when the global cache lock is
acquired (i.e. a global-cache call is made without first releasing the
caller's lock). -/
def lock_held_at_global_acquire : List LockId → List LockEv → Bool
  | _, [] => false
  | held, e :: rest =>
      (match e with
       | .acquire .global_cache => !held.isEmpty
       | _ => false)
      || lock_held_at_global_acquire (lockStep held e) rest

/-- The global cache lock is held while acquiring one of the outer locks
(the reverse nesting order, which would permit deadlock against the
`entry-lock → global-lock` order). -/
def global_held_at_other_acquire : List LockId → List LockEv → Bool
  | _, [] => false
  | held, e :: rest =>
      (match e with
       | .acquire .entry_mutex => held.contains .global_cache
       | .acquire .collection_mutex => held.contains .global_cache
       | _ => false)
      || global_held_at_other_acquire (lockStep held e) rest

/-- Some state holds the per-entry and per-collection locks together. -/
def entry_and_collection_both_held : List LockId → List LockEv → Bool
  | _, [] => false
  | held, e :: rest =>
      let held2 := lockStep held e
      (held2.contains .entry_mutex && held2.contains .collection_mutex)
      || entry_and_collection_both_held held2 rest

/-- `VolumeGrid::load`, slow path that reads the file: the entry mutex is
held for the whole body; `GLOBAL_CACHE.change_to_tree_user` acquires and
releases the global lock inside it; the OpenVDB read happens still under
the entry mutex. -/
def trace_grid_load_read : List LockEv :=
  [.acquire .entry_mutex,
   .acquire .global_cache, .release .global_cache,
   .file_read,
   .release .entry_mutex]

/-- `VolumeGrid::load`, path where another user already loaded the tree
(`entry->is_loaded` observed true after the class change). -/
def trace_grid_load_cached : List LockEv :=
  [.acquire .entry_mutex,
   .acquire .global_cache, .release .global_cache,
   .release .entry_mutex]

/-- `VolumeGrid::unload`, slow path: entry mutex around
`GLOBAL_CACHE.change_to_metadata_user`. -/
def trace_grid_unload : List LockEv :=
  [.acquire .entry_mutex,
   .acquire .global_cache, .release .global_cache,
   .release .entry_mutex]

/-- Any single `VolumeFileCache` method (`add_metadata_user`, `copy_user`,
`remove_user`, `change_to_tree_user`, `change_to_metadata_user`) called
with no outer lock held (grid construction, copy, destruction). -/
def trace_cache_op : List LockEv :=
  [.acquire .global_cache, .release .global_cache]

/-- One `GLOBAL_CACHE.add_metadata_user` per discovered grid
(`grids.emplace_back` → `VolumeGrid` constructor). -/
def add_user_calls : Nat → List LockEv
  | 0 => []
  | n + 1 => .acquire .global_cache :: .release .global_cache :: add_user_calls n

/-- `BKE_volume_load`, slow path: collection mutex around `BLI_exists`,
the OpenVDB metadata enumeration, and one cache registration per grid. -/
def trace_volume_load (num_grids : Nat) : List LockEv :=
  .acquire .collection_mutex
  :: .file_read
  :: .file_read
  :: (add_user_calls num_grids ++ [.release .collection_mutex])

/-! ## Theorems -/

/-- C truncated remainder is strictly greater than `-b` for positive `b`
(companion to `Int.tmod_lt_of_pos`). -/
theorem neg_lt_tmod (a : Int) {b : Int} (H : 0 < b) : -b < Int.tmod a b := by
  rcases a with m | m
  · have h1 : 0 ≤ Int.tmod (Int.ofNat m) b := Int.tmod_nonneg b (Int.ofNat_nonneg m)
    simp only [Int.ofNat_eq_natCast] at h1 ⊢
    omega
  · rcases b with n | n
    · have h1 : Int.tmod (Int.negSucc m) (Int.ofNat n) = -Int.ofNat ((m + 1) % n) := rfl
      have hn : 0 < n := by
        simp only [Int.ofNat_eq_natCast] at H
        omega
      have h2 : (m + 1) % n < n := Nat.mod_lt _ hn
      simp only [Int.ofNat_eq_natCast] at h1 ⊢
      rw [h1]
      omega
    · rw [Int.negSucc_eq] at H
      omega

/-- Claim C1: with `frame_duration = 10`, `frame_start = 1`,
`frame_offset = 0`, the sequence-frame resolution maps: Clip mode at scene
time 15 to the no-frame sentinel; Extend mode at scene time 15 to
frame 10; Repeat mode at scene time 21 to frame 1; PingPong mode at scene
time 19 to frame 1 and at scene time 28 to frame 10. -/
theorem volume_sequence_frame_golden_cases :
    volume_sequence_frame true 15 .VOLUME_SEQUENCE_CLIP 10 1 0 = VOLUME_FRAME_NONE
    ∧ volume_sequence_frame true 15 .VOLUME_SEQUENCE_EXTEND 10 1 0 = 10
    ∧ volume_sequence_frame true 21 .VOLUME_SEQUENCE_REPEAT 10 1 0 = 1
    ∧ volume_sequence_frame true 19 .VOLUME_SEQUENCE_PING_PONG 10 1 0 = 1
    ∧ volume_sequence_frame true 28 .VOLUME_SEQUENCE_PING_PONG 10 1 0 = 10 := by
  decide

/-- Claim C8, counterexample: at `frame_duration = 1` (non-sentinel, since
only `frame_duration == 0` maps to the sentinel) the PingPong period
divisor `frame_duration * 2 - 2` is zero, and the resolved frame can land
far outside `[1, frame_duration]`: at scene time 5 (`frame_start = 1`,
`frame_offset = 0`) the fold `frame_duration * 2 - frame` yields `-3`.
(In C, `frame % 0` is undefined behaviour; `Int.tmod x 0 = x` renders the
same data flow with the modulo as identity.) -/
theorem pingpong_duration_one_cex :
    pingpong_duration 1 = 0
    ∧ volume_sequence_frame true 5 .VOLUME_SEQUENCE_PING_PONG 1 1 0 = -3
    ∧ ¬(1 ≤ volume_sequence_frame true 5 .VOLUME_SEQUENCE_PING_PONG 1 1 0) := by
  decide

/-- Claim C8, amended (`frame_duration ≥ 2` instead of `≥ 1`): the PingPong
period divisor `frame_duration * 2 - 2` is nonzero and the folded frame
before the offset is added lies in `[1, frame_duration]`. -/
theorem pingpong_wrap_in_range (frame_duration frame : Int)
    (h : 2 ≤ frame_duration) :
    pingpong_duration frame_duration ≠ 0
    ∧ 1 ≤ pingpong_wrap frame_duration frame
    ∧ pingpong_wrap frame_duration frame ≤ frame_duration := by
  have hp : 0 < pingpong_duration frame_duration := by
    unfold pingpong_duration
    omega
  have hlo := neg_lt_tmod frame hp
  have hhi := Int.tmod_lt_of_pos frame hp
  unfold pingpong_wrap
  unfold pingpong_duration at hp hlo hhi ⊢
  refine ⟨by omega, ?_⟩
  dsimp only
  split_ifs <;> omega

/-- Witness for `pingpong_wrap_in_range` at `frame_duration = 2`,
`frame = 7`. -/
theorem pingpong_wrap_in_range_witness :
    (2 : Int) ≤ 2
    ∧ (pingpong_duration 2 ≠ 0 ∧ 1 ≤ pingpong_wrap 2 7 ∧ pingpong_wrap 2 7 ≤ 2) :=
  ⟨by decide, pingpong_wrap_in_range 2 7 (by decide)⟩

/-- Behaviour of the eviction check `update_for_remove_user`: it erases the
entry exactly when both counters are zero; otherwise it preserves the
counters and identity, clears the tree and the loaded flag when no tree
users remain, and leaves the entry untouched when tree users remain. -/
theorem update_for_remove_user_spec (e : Entry) :
    (update_for_remove_user e = none ↔ e.num_metadata_users + e.num_tree_users = 0)
    ∧ ∀ e', update_for_remove_user e = some e' →
        e'.num_metadata_users = e.num_metadata_users
        ∧ e'.num_tree_users = e.num_tree_users
        ∧ e'.filepath = e.filepath
        ∧ e'.grid_name = e.grid_name
        ∧ e'.error_msg = e.error_msg
        ∧ (e'.num_tree_users = 0 → e'.tree = none ∧ e'.is_loaded = false)
        ∧ (e'.num_tree_users ≠ 0 → e' = e) := by
  unfold update_for_remove_user
  split_ifs with h1 h2
  · simp [h1]
  · constructor
    · simp [h1]
    · intro e' he'
      have : ({ e with tree := none, is_loaded := false } : Entry) = e' :=
        Option.some.inj he'
      subst this
      simp [h2]
  · constructor
    · simp [h1]
    · intro e' he'
      have : e = e' := Option.some.inj he'
      subst this
      simp [h2]

/-- Claim C2: for every entry and every user-count mutation (`remove_user`,
`change_to_tree_user`, `change_to_metadata_user`) applied with
non-negative counters and at least one user in the decremented class, the
entry is erased from the cache exactly when
`num_metadata_users + num_tree_users` reaches zero; whenever the entry
remains with `num_tree_users = 0`, it has `num_metadata_users > 0`, its
grid tree is cleared and `is_loaded` is reset to `false`; and every entry
that remains satisfies `num_metadata_users + num_tree_users ≥ 1`. -/
theorem cache_user_count_eviction (op : CacheOp) (e : Entry)
    (hmeta : 0 ≤ e.num_metadata_users) (htree : 0 ≤ e.num_tree_users)
    (hvalid : opValid op e) :
    (applyOp op e = none ↔ users_total e + opDelta op = 0)
    ∧ ∀ e', applyOp op e = some e' →
        1 ≤ users_total e'
        ∧ users_total e' = users_total e + opDelta op
        ∧ (e'.num_tree_users = 0 →
            0 < e'.num_metadata_users ∧ e'.tree = none ∧ e'.is_loaded = false) := by
  cases op with
  | removeUser tree_user =>
    cases tree_user with
    | false =>
      simp only [opValid] at hvalid
      have h := update_for_remove_user_spec
        { e with num_metadata_users := e.num_metadata_users - 1 }
      simp only [applyOp, remove_user, if_neg Bool.false_ne_true, Bool.false_eq_true,
        if_false] at *
      refine ⟨?_, ?_⟩
      · rw [h.1]
        simp only [users_total, opDelta]
        constructor <;> intro hh <;> omega
      · intro e' he'
        obtain ⟨c1, c2, -, -, -, c6, -⟩ := h.2 e' he'
        simp only [users_total, opDelta] at *
        have hne : ¬(e.num_metadata_users - 1 + e.num_tree_users = 0) := by
          intro hz
          rw [← h.1] at hz
          simp only [hz] at he'
          cases he'
        refine ⟨by omega, by omega, ?_⟩
        intro hz
        obtain ⟨d1, d2⟩ := c6 hz
        exact ⟨by omega, d1, d2⟩
    | true =>
      simp only [opValid] at hvalid
      have h := update_for_remove_user_spec
        { e with num_tree_users := e.num_tree_users - 1 }
      simp only [applyOp, remove_user, if_pos] at *
      refine ⟨?_, ?_⟩
      · rw [h.1]
        simp only [users_total, opDelta]
        constructor <;> intro hh <;> omega
      · intro e' he'
        obtain ⟨c1, c2, -, -, -, c6, -⟩ := h.2 e' he'
        simp only [users_total, opDelta] at *
        have hne : ¬(e.num_metadata_users + (e.num_tree_users - 1) = 0) := by
          intro hz
          rw [← h.1] at hz
          simp only [hz] at he'
          cases he'
        refine ⟨by omega, by omega, ?_⟩
        intro hz
        obtain ⟨d1, d2⟩ := c6 hz
        exact ⟨by omega, d1, d2⟩
  | changeToTreeUser =>
    simp only [opValid] at hvalid
    have h := update_for_remove_user_spec
      { e with
        num_tree_users := e.num_tree_users + 1
        num_metadata_users := e.num_metadata_users - 1 }
    simp only [applyOp, change_to_tree_user] at *
    refine ⟨?_, ?_⟩
    · rw [h.1]
      simp only [users_total, opDelta]
      constructor <;> intro hh <;> omega
    · intro e' he'
      obtain ⟨c1, c2, -, -, -, c6, -⟩ := h.2 e' he'
      simp only [users_total, opDelta] at *
      refine ⟨by omega, by omega, ?_⟩
      intro hz
      omega
  | changeToMetadataUser =>
    simp only [opValid] at hvalid
    have h := update_for_remove_user_spec
      { e with
        num_metadata_users := e.num_metadata_users + 1
        num_tree_users := e.num_tree_users - 1 }
    simp only [applyOp, change_to_metadata_user] at *
    refine ⟨?_, ?_⟩
    · rw [h.1]
      simp only [users_total, opDelta]
      constructor <;> intro hh <;> omega
    · intro e' he'
      obtain ⟨c1, c2, -, -, -, c6, -⟩ := h.2 e' he'
      simp only [users_total, opDelta] at *
      have hne : ¬(e.num_metadata_users + 1 + (e.num_tree_users - 1) = 0) := by
        intro hz
        rw [← h.1] at hz
        simp only [hz] at he'
        cases he'
      refine ⟨by omega, by omega, ?_⟩
      intro hz
      obtain ⟨d1, d2⟩ := c6 hz
      exact ⟨by omega, d1, d2⟩

/-- Witness for `cache_user_count_eviction`: removing the last tree user
of an entry with one metadata and one tree user does not erase it. -/
theorem cache_user_count_eviction_witness :
    opValid (CacheOp.removeUser true)
        ⟨"/tmp/fire.vdb", "density", some "T", true, "", 1, 1⟩
    ∧ applyOp (CacheOp.removeUser true)
        ⟨"/tmp/fire.vdb", "density", some "T", true, "", 1, 1⟩ ≠ none := by
  have h := cache_user_count_eviction (CacheOp.removeUser true)
    ⟨"/tmp/fire.vdb", "density", some "T", true, "", 1, 1⟩
    (by decide) (by decide) (by decide)
  refine ⟨by decide, fun hnone => ?_⟩
  have h0 := h.1.mp hnone
  revert h0
  decide

/-- `change_to_tree_user` on an entry with another user left and
non-negative tree count only moves the counters. -/
theorem change_to_tree_user_eq (e : Entry)
    (hsum : e.num_metadata_users + e.num_tree_users ≠ 0)
    (htree : 0 ≤ e.num_tree_users) :
    change_to_tree_user e =
      some { e with
              num_tree_users := e.num_tree_users + 1
              num_metadata_users := e.num_metadata_users - 1 } := by
  unfold change_to_tree_user update_for_remove_user
  dsimp only
  split_ifs with h1 h2
  · exact absurd (by omega : e.num_metadata_users + e.num_tree_users = 0) hsum
  · omega
  · rfl

/-- Claim C3: (1) a failed tree read records the I/O error text in
`error_msg` and still sets the entry's `is_loaded` to `true`, and no
subsequent `load` on any handle of that entry performs file I/O again;
(2) once an entry's `is_loaded` is `true`, `load` keeps it `true` and does
no I/O; (3) among the cache's user-count mutations, any transition of an
entry's `is_loaded` from `true` to `false` happens only in the eviction
path, i.e. leaves `num_tree_users = 0`. -/
theorem grid_load_error_terminal :
    (∀ (e : Entry) (msg : String),
        e.is_loaded = false → 0 ≤ e.num_tree_users → 1 ≤ e.num_metadata_users →
        ∃ e', gridLoad (Except.error msg) false (some e) = (true, some e', true)
          ∧ e'.error_msg = msg ∧ e'.is_loaded = true
          ∧ ∀ (rr2 : Except String String) (h2 : Bool),
              (gridLoad rr2 h2 (some e')).2.2 = false)
    ∧ (∀ (rr : Except String String) (handle_loaded : Bool) (e : Entry),
        e.is_loaded = true → 0 ≤ e.num_tree_users →
        e.num_metadata_users + e.num_tree_users ≠ 0 →
        ∃ e2, (gridLoad rr handle_loaded (some e)).2.1 = some e2
          ∧ e2.is_loaded = true
          ∧ (gridLoad rr handle_loaded (some e)).2.2 = false)
    ∧ (∀ (op : CacheOp) (e e' : Entry), applyOp op e = some e' →
        e'.is_loaded = false → e.is_loaded = false ∨ e'.num_tree_users = 0) := by
  refine ⟨?_, ?_, ?_⟩
  · intro e msg hload htree hmeta
    have hchg := change_to_tree_user_eq e (by omega) htree
    refine ⟨{ e with
               num_tree_users := e.num_tree_users + 1
               num_metadata_users := e.num_metadata_users - 1
               error_msg := msg
               is_loaded := true }, ?_, rfl, rfl, ?_⟩
    · simp only [gridLoad, if_neg Bool.false_ne_true, Bool.false_eq_true, if_false, hchg]
      simp [hload]
    · intro rr2 h2
      cases h2 with
      | true => rfl
      | false =>
        have hchg2 := change_to_tree_user_eq
          { e with
            num_tree_users := e.num_tree_users + 1
            num_metadata_users := e.num_metadata_users - 1
            error_msg := msg
            is_loaded := true }
          (by dsimp only; omega) (by dsimp only; omega)
        simp only [gridLoad, Bool.false_eq_true, if_false, hchg2]
        simp
  · intro rr handle_loaded e hload htree hsum
    cases handle_loaded with
    | true => exact ⟨e, rfl, hload, rfl⟩
    | false =>
      have hchg := change_to_tree_user_eq e hsum htree
      refine ⟨{ e with
                 num_tree_users := e.num_tree_users + 1
                 num_metadata_users := e.num_metadata_users - 1 }, ?_, hload, ?_⟩ <;>
        simp only [gridLoad, Bool.false_eq_true, if_false, hchg, hload, if_pos]
  · intro op e e' he' hfalse
    by_cases hz : e'.num_tree_users = 0
    · exact Or.inr hz
    · left
      cases op with
      | removeUser tree_user =>
        cases tree_user with
        | false =>
          simp only [applyOp, remove_user, Bool.false_eq_true, if_false] at he'
          have h := (update_for_remove_user_spec _).2 e' he'
          have := h.2.2.2.2.2.2 hz
          rw [this] at hfalse
          exact hfalse
        | true =>
          simp only [applyOp, remove_user, if_pos] at he'
          have h := (update_for_remove_user_spec _).2 e' he'
          have := h.2.2.2.2.2.2 hz
          rw [this] at hfalse
          exact hfalse
      | changeToTreeUser =>
        simp only [applyOp, change_to_tree_user] at he'
        have h := (update_for_remove_user_spec _).2 e' he'
        have := h.2.2.2.2.2.2 hz
        rw [this] at hfalse
        exact hfalse
      | changeToMetadataUser =>
        simp only [applyOp, change_to_metadata_user] at he'
        have h := (update_for_remove_user_spec _).2 e' he'
        have := h.2.2.2.2.2.2 hz
        rw [this] at hfalse
        exact hfalse

/-- Witness for `grid_load_error_terminal`: a metadata-only entry whose
read fails with message `"boom"` still reports that the load I/O happened
exactly once. -/
theorem grid_load_error_terminal_witness :
    (⟨"/a/b.vdb", "density", none, false, "", 1, 0⟩ : Entry).is_loaded = false
    ∧ (gridLoad (Except.error "boom") false
        (some ⟨"/a/b.vdb", "density", none, false, "", 1, 0⟩)).2.2 = true := by
  obtain ⟨e', he, -, -, -⟩ := grid_load_error_terminal.1
    ⟨"/a/b.vdb", "density", none, false, "", 1, 0⟩ "boom" rfl (by decide) (by decide)
  exact ⟨by decide, by rw [he]⟩

/-- Claim C6: copying a shared handle increments exactly the counter of
the referenced entry that matches the source handle's class (tree when the
source's `is_loaded` is `true`, metadata otherwise), keeps every other
entry field, and gives the copy the same entry and the same `is_loaded`
flag; copying a private handle changes no cache counters. -/
theorem grid_copy_user_semantics (handle_loaded : Bool) (e : Entry) :
    (∃ e', gridCopy handle_loaded (some e) = (handle_loaded, some e')
      ∧ e'.filepath = e.filepath
      ∧ e'.grid_name = e.grid_name
      ∧ e'.tree = e.tree
      ∧ e'.is_loaded = e.is_loaded
      ∧ e'.error_msg = e.error_msg
      ∧ e'.num_tree_users = e.num_tree_users + (if handle_loaded then 1 else 0)
      ∧ e'.num_metadata_users
          = e.num_metadata_users + (if handle_loaded then 0 else 1))
    ∧ gridCopy handle_loaded none = (handle_loaded, none) := by
  refine ⟨⟨copy_user e handle_loaded, rfl, ?_⟩, rfl⟩
  cases handle_loaded <;> simp [copy_user]

/-- Claim C7: `load` on a handle already loaded, or with no cache entry,
changes nothing and does no I/O; `unload` on a handle not loaded, or with
no cache entry, changes nothing. -/
theorem grid_load_unload_noop :
    (∀ (rr : Except String String) (oe : Option Entry),
        gridLoad rr true oe = (true, oe, false))
    ∧ (∀ (rr : Except String String) (handle_loaded : Bool),
        gridLoad rr handle_loaded none = (handle_loaded, none, false))
    ∧ (∀ oe : Option Entry, gridUnload false oe = (false, oe))
    ∧ (∀ handle_loaded : Bool, gridUnload handle_loaded none = (handle_loaded, none)) := by
  refine ⟨?_, ?_, ?_, ?_⟩
  · intro rr oe
    cases oe <;> rfl
  · intro rr handle_loaded
    rfl
  · intro oe
    cases oe <;> rfl
  · intro handle_loaded
    rfl

/-- The "`<filename>` not found" message is never the empty string. -/
theorem not_found_msg_ne_empty (s : String) : s ++ " not found" ≠ "" := by
  intro h
  have h2 := congrArg String.length h
  have h10 : (" not found" : String).length = 10 := rfl
  have h0 : ("" : String).length = 0 := rfl
  rw [String.length_append, h10, h0] at h2
  omega

/-- Claim C4: collection load succeeds trivially, touching no file, when
the runtime frame is the no-frame sentinel; when (past that check) the
collection is already loaded — runtime grids path non-empty — it returns
whether the stored error message is empty, with no I/O and no state
change; consequently a second call with an unchanged resolved path
returns the same success value as the first without touching disk. -/
theorem volume_load_idempotent (fs : FileSystem) (resolved : String) (v : VolumeState) :
    (v.runtime_frame = VOLUME_FRAME_NONE →
        BKE_volume_load fs resolved v
          = { ret := true, volume := v, opened_file := false, touched_disk := false })
    ∧ (v.runtime_frame ≠ VOLUME_FRAME_NONE → v.grids.filepath ≠ "" →
        BKE_volume_load fs resolved v
          = { ret := v.grids.error_msg = "", volume := v,
              opened_file := false, touched_disk := false })
    ∧ (v.runtime_frame ≠ VOLUME_FRAME_NONE → v.filepath ≠ "" →
       v.grids.filepath = "" → resolved ≠ "" →
        (BKE_volume_load fs resolved ((BKE_volume_load fs resolved v).volume)).ret
            = (BKE_volume_load fs resolved v).ret
        ∧ (BKE_volume_load fs resolved
            ((BKE_volume_load fs resolved v).volume)).touched_disk = false) := by
  refine ⟨?_, ?_, ?_⟩
  · intro hframe
    simp [BKE_volume_load, hframe]
  · intro hframe hloaded
    simp [BKE_volume_load, BKE_volume_is_loaded, hframe, hloaded]
  · intro hframe hpath hgrids hres
    by_cases hex : fs.file_exists resolved = false
    · simp only [BKE_volume_load, BKE_volume_is_loaded, hframe, hgrids, hex,
        if_false, if_neg hframe]
      simp [hpath, hgrids, hex, hres, not_found_msg_ne_empty (split_file_part resolved),
        BKE_volume_is_loaded, hframe]
    · rcases hread : fs.read_all_grid_metadata resolved with msg | lst
      · simp only [BKE_volume_load, BKE_volume_is_loaded, hframe, hgrids, hex, hread]
        simp [hpath, hgrids, hex, hread, hres, BKE_volume_is_loaded, hframe,
          Bool.of_not_eq_false hex]
      · simp only [BKE_volume_load, BKE_volume_is_loaded, hframe, hgrids, hex, hread]
        simp [hpath, hgrids, hex, hread, hres, BKE_volume_is_loaded, hframe,
          Bool.of_not_eq_false hex]

/-- Witness for `volume_load_idempotent`: a sequence volume outside its
range (runtime frame = sentinel) loads trivially. -/
theorem volume_load_idempotent_witness :
    BKE_volume_load
        ⟨fun _ => false, fun _ => Except.error "io"⟩ "/tmp/a.vdb"
        ⟨"//smoke.vdb", 2147483647, ⟨"", "", []⟩⟩
      = { ret := true, volume := ⟨"//smoke.vdb", 2147483647, ⟨"", "", []⟩⟩,
          opened_file := false, touched_disk := false } :=
  (volume_load_idempotent ⟨fun _ => false, fun _ => Except.error "io"⟩ "/tmp/a.vdb"
    ⟨"//smoke.vdb", 2147483647, ⟨"", "", []⟩⟩).1 rfl

/-- Claim C5: when the resolved path does not exist on disk, collection
load fails, records `"<bare filename> not found"` as the collection error,
never invokes file-open, and stores the resolved path in the collection's
`filepath`, so a repeat call short-circuits (same failure, no disk
access). -/
theorem volume_load_not_found (fs : FileSystem) (resolved : String) (v : VolumeState)
    (hframe : v.runtime_frame ≠ VOLUME_FRAME_NONE)
    (hpath : v.filepath ≠ "")
    (hgrids : v.grids.filepath = "")
    (hexists : fs.file_exists resolved = false)
    (hres : resolved ≠ "") :
    (BKE_volume_load fs resolved v).ret = false
    ∧ (BKE_volume_load fs resolved v).volume.grids.error_msg
        = split_file_part resolved ++ " not found"
    ∧ (BKE_volume_load fs resolved v).opened_file = false
    ∧ (BKE_volume_load fs resolved v).volume.grids.filepath = resolved
    ∧ (BKE_volume_load fs resolved
        ((BKE_volume_load fs resolved v).volume)).touched_disk = false
    ∧ (BKE_volume_load fs resolved
        ((BKE_volume_load fs resolved v).volume)).ret = false := by
  have h1 : BKE_volume_load fs resolved v
      = { ret := false,
          volume := { v with grids :=
            { v.grids with
                filepath := resolved
                error_msg := split_file_part resolved ++ " not found" } },
          opened_file := false, touched_disk := true } := by
    simp [BKE_volume_load, BKE_volume_is_loaded, hframe, hpath, hgrids, hexists]
  rw [h1]
  refine ⟨rfl, rfl, rfl, rfl, ?_, ?_⟩ <;>
    simp [BKE_volume_load, BKE_volume_is_loaded, hframe, hpath, hres,
      not_found_msg_ne_empty (split_file_part resolved)]

/-- Witness for `volume_load_not_found` on a concrete missing file. -/
theorem volume_load_not_found_witness :
    (BKE_volume_load ⟨fun _ => false, fun _ => Except.error "io"⟩
        "/tmp/seq/smoke_0007.vdb" ⟨"//smoke_####.vdb", 7, ⟨"", "", []⟩⟩).ret = false
    ∧ (BKE_volume_load ⟨fun _ => false, fun _ => Except.error "io"⟩
        "/tmp/seq/smoke_0007.vdb" ⟨"//smoke_####.vdb", 7, ⟨"", "", []⟩⟩).volume.grids.error_msg
        = "smoke_0007.vdb not found" := by
  have h := volume_load_not_found ⟨fun _ => false, fun _ => Except.error "io"⟩
    "/tmp/seq/smoke_0007.vdb" ⟨"//smoke_####.vdb", 7, ⟨"", "", []⟩⟩
    (by decide) (by decide) rfl rfl (by decide)
  refine ⟨h.1, ?_⟩
  rw [h.2.1]
  decide

/-- Claim C9, counterexample: `VolumeGrid::load` holds the per-entry lock
across the `GLOBAL_CACHE.change_to_tree_user` call, so two locks are held
simultaneously, and the entry lock is *not* released before the
global-cache call (which is what the claim's only allowed exception
requires). -/
theorem lock_two_held_cex :
    two_locks_held [] trace_grid_load_read = true
    ∧ lock_held_at_global_acquire [] trace_grid_load_read = true := by
  decide

/-- The per-grid cache registrations of `BKE_volume_load` (all under the
collection mutex only) never read files or acquire an outer lock with the
global lock held, and never involve the entry mutex. -/
theorem add_user_calls_discipline (n : Nat) :
    global_held_during_file_read [.collection_mutex]
        (add_user_calls n ++ [.release .collection_mutex]) = false
    ∧ global_held_at_other_acquire [.collection_mutex]
        (add_user_calls n ++ [.release .collection_mutex]) = false
    ∧ entry_and_collection_both_held [.collection_mutex]
        (add_user_calls n ++ [.release .collection_mutex]) = false := by
  induction n with
  | zero => exact ⟨rfl, rfl, rfl⟩
  | succ n ih =>
      simp only [add_user_calls, List.cons_append, global_held_during_file_read,
        global_held_at_other_acquire, entry_and_collection_both_held, lockStep,
        List.erase_cons_head, Bool.false_or, List.contains_cons]
      simpa using ih

/-- Claim C9, amended: operations *do* hold two locks simultaneously — the
per-entry (load/unload) or per-collection (collection load) lock stays
held while the nested global-cache call acquires the global lock.  What
does hold of every modeled operation: the global cache lock is innermost —
it is never held across a file-I/O event and never held while acquiring
another lock — and the per-entry and per-collection locks are never held
together. -/
theorem lock_discipline_amended :
    two_locks_held [] trace_grid_load_read = true
    ∧ (global_held_during_file_read [] trace_grid_load_read = false
       ∧ global_held_at_other_acquire [] trace_grid_load_read = false
       ∧ entry_and_collection_both_held [] trace_grid_load_read = false)
    ∧ (global_held_during_file_read [] trace_grid_load_cached = false
       ∧ global_held_at_other_acquire [] trace_grid_load_cached = false
       ∧ entry_and_collection_both_held [] trace_grid_load_cached = false)
    ∧ (global_held_during_file_read [] trace_grid_unload = false
       ∧ global_held_at_other_acquire [] trace_grid_unload = false
       ∧ entry_and_collection_both_held [] trace_grid_unload = false)
    ∧ (global_held_during_file_read [] trace_cache_op = false
       ∧ global_held_at_other_acquire [] trace_cache_op = false
       ∧ entry_and_collection_both_held [] trace_cache_op = false)
    ∧ ∀ n : Nat,
        global_held_during_file_read [] (trace_volume_load n) = false
        ∧ global_held_at_other_acquire [] (trace_volume_load n) = false
        ∧ entry_and_collection_both_held [] (trace_volume_load n) = false := by
  refine ⟨by decide, by decide, by decide, by decide, by decide, ?_⟩
  intro n
  have h := add_user_calls_discipline n
  simp only [trace_volume_load, global_held_during_file_read,
    global_held_at_other_acquire, entry_and_collection_both_held, lockStep,
    Bool.false_or, List.contains_cons]
  simpa using h

/-- Claim C10: the active-grid accessor returns NULL exactly for a volume
with zero grids; for a non-empty grid list it returns the in-bounds grid
at index `clamp_i(active_grid, 0, num_grids - 1)`, even when `active_grid`
itself is negative or too large. -/
theorem volume_grid_active_get_safe {α : Type} (grids : List α) (active_grid : Int) :
    (BKE_volume_grid_active_get grids active_grid = none ↔ grids = [])
    ∧ (grids ≠ [] →
        ∃ h : (clamp_i active_grid 0 ((grids.length : Int) - 1)).toNat < grids.length,
          BKE_volume_grid_active_get grids active_grid
            = some (grids.get
                ⟨(clamp_i active_grid 0 ((grids.length : Int) - 1)).toNat, h⟩)) := by
  by_cases hnil : grids = []
  · subst hnil
    simp [BKE_volume_grid_active_get, BKE_volume_num_grids]
  · have hlen : 0 < grids.length := List.length_pos.mpr hnil
    have hc0 : 0 ≤ clamp_i active_grid 0 ((grids.length : Int) - 1) := by
      unfold clamp_i
      have : (0 : Int) ≤ (grids.length : Int) - 1 := by omega
      omega
    have hc1 : clamp_i active_grid 0 ((grids.length : Int) - 1)
        ≤ (grids.length : Int) - 1 := by
      unfold clamp_i
      omega
    have hlt : (clamp_i active_grid 0 ((grids.length : Int) - 1)).toNat
        < grids.length := by omega
    have hmain : BKE_volume_grid_active_get grids active_grid
        = some (grids.get
            ⟨(clamp_i active_grid 0 ((grids.length : Int) - 1)).toNat, hlt⟩) := by
      unfold BKE_volume_grid_active_get BKE_volume_grid_get BKE_volume_num_grids
      rw [if_neg (by omega : ¬((grids.length : Int) = 0)), if_pos hc0,
        List.get?_eq_get hlt]
    refine ⟨?_, fun _ => ⟨hlt, hmain⟩⟩
    rw [hmain]
    simp [hnil]

/-- Witness for `volume_grid_active_get_safe`: an out-of-range active
index on a three-grid volume clamps to the last grid. -/
theorem volume_grid_active_get_safe_witness :
    (([10, 20, 30] : List Int) ≠ [])
    ∧ BKE_volume_grid_active_get ([10, 20, 30] : List Int) 7 = some 30 := by
  obtain ⟨h, heq⟩ := (volume_grid_active_get_safe ([10, 20, 30] : List Int) 7).2
    (by decide)
  refine ⟨by decide, ?_⟩
  rw [heq]
  rfl

end BlenderVolume
